/-
Verification of the Smart-Home-Security-System repository.

Shallow embedding of the Python sources:
  - detector.py        (ObjectDetector: detect_objects, draw_detections,
                        check_access, format_detection_message,
                        remove_annotated_image)
  - camera_manager.py  (CameraManager: initialize_camera, cleanup,
                        capture_h264_video, capture_image, cleanup_files)
  - main.py            (SecuritySystem.run: one detection cycle)
  - config_loader.py   (load_config)

Confidence scores are modelled as rationals (Python floats carry exact
decimal literals in every scenario considered here); filesystem state as a
list of existing paths; Python exceptions as explicit error values
(Option / Except); I/O and hardware outcomes as boolean/function oracles.
-/
import Mathlib

/-! ## Data model (mediapipe detection results, detector.py) -/

/-- One category of a mediapipe detection: a confidence score and a label. -/
structure Category where
  score : ℚ
  category_name : String
deriving DecidableEq, Repr

instance : Inhabited Category := ⟨⟨0, ""⟩⟩

/-- A mediapipe bounding box. -/
structure BBox where
  origin_x : Int
  origin_y : Int
  width : Int
  height : Int
deriving DecidableEq, Repr

/-- One detection: a bounding box and a list of categories.
The Python code reads `detection.categories[0]`, which raises `IndexError`
when the list is empty; the embedding keeps the list type and returns
`none` (= raised exception) in that case. -/
structure Detection where
  bounding_box : BBox
  categories : List Category
deriving DecidableEq, Repr

/-- The result object returned by the mediapipe detector. -/
structure DetectionResult where
  detections : List Detection
deriving DecidableEq, Repr

/-- The state of `ObjectDetector` that the pure logic depends on. -/
structure ObjectDetector where
  confidence_threshold : ℚ
deriving DecidableEq, Repr

namespace ObjectDetector

/-- The `for detection in detection_result.detections` loop of
`check_access` (detector.py lines 79-86): return `True` at the first
detection whose `categories[0].score` meets the threshold, `False` after
the loop; `none` models the `IndexError` on an empty category list. -/
def checkLoop (thr : ℚ) : List Detection → Option Bool
  | [] => some false
  | d :: rest =>
    match d.categories.head? with
    | none => none
    | some c => if thr ≤ c.score then some true else checkLoop thr rest

/-- `ObjectDetector.check_access` (detector.py lines 72-86): `False` on an
empty detection list, otherwise scan for one detection meeting the
threshold. -/
def check_access (det : ObjectDetector) (r : DetectionResult) : Option Bool :=
  if r.detections.isEmpty then some false
  else checkLoop det.confidence_threshold r.detections

/-- Whether a detection's first category meets the threshold (the test the
`check_access` loop applies to each element). -/
def meets (thr : ℚ) (d : Detection) : Bool :=
  match d.categories.head? with
  | none => false
  | some c => decide (thr ≤ c.score)

/-- Rendering of the Python format spec `{q:.2%}`: the value times 100 with
two decimal digits and a percent sign (exact for the two-decimal scores
used throughout; float rounding-mode differences do not arise there). -/
def fmtPercent (q : ℚ) : String :=
  let cents : Int := ⌊q * 10000⌋
  let frac : Int := cents % 100
  toString (cents / 100) ++ "." ++ (if frac < 10 then "0" else "") ++
    toString frac ++ "%"

/-- The text appended for the `i`-th detection (1-based) with first
category `c` in `format_detection_message` (detector.py lines 94-103). -/
def detectionEntry (thr : ℚ) (i : Nat) (c : Category) : String :=
  "\n" ++ toString i ++ ". <b>" ++ c.category_name ++ "</b>" ++
  "\n   Confidence: " ++ fmtPercent c.score ++
  (if thr ≤ c.score then "\n   ✅ Access Granted - Door Open"
   else "\n   ❌ Access Denied")

/-- Concatenation of the per-detection message pieces. -/
def strConcat (l : List String) : String := l.foldr (· ++ ·) ""

/-- The `for i, detection in enumerate(detections, 1)` accumulation loop of
`format_detection_message`; `none` models the `IndexError` raised by
`detection.categories[0]` on an empty category list. -/
def formatLoop (thr : ℚ) : Nat → List Detection → Option String
  | _, [] => some ""
  | i, d :: rest =>
    match d.categories.head? with
    | none => none
    | some c =>
      match formatLoop thr (i + 1) rest with
      | none => none
      | some s => some (detectionEntry thr i c ++ s)

/-- `ObjectDetector.format_detection_message` (detector.py lines 88-104):
the no-objects sentinel on an empty list, otherwise the header followed by
one entry per detection. -/
def format_detection_message (det : ObjectDetector) (r : DetectionResult) :
    Option String :=
  if r.detections.length = 0 then some "🚫 No objects detected"
  else
    match formatLoop det.confidence_threshold 1 r.detections with
    | none => none
    | some s => some ("🔍 <b>Detection Results:</b>\n" ++ s)

end ObjectDetector

/-! ## Camera manager (camera_manager.py) -/

namespace CameraManager

/-- The camera-owning state of `CameraManager`: `picam2` is `some h` when a
device handle is held, `none` otherwise. -/
structure CamState where
  picam2 : Option Nat
deriving DecidableEq, Repr

/-- Outcome of `initialize_camera`: return on a successful attempt, the
`RuntimeError` raised after the last failed attempt, or the fall-through
return (reachable only when the retry bound is 0, since the last failed
attempt raises). Each constructor records how many initialization attempts
were made. -/
inductive InitResult
  | success (attempts : Nat)
  | failure (attempts : Nat)
  | fellThrough (attempts : Nat)
deriving DecidableEq, Repr

/-- Number of initialization attempts an `InitResult` records. -/
def InitResult.attempts : InitResult → Nat
  | .success k => k
  | .failure k => k
  | .fellThrough k => k

/-- The `for attempt in range(self._max_retries)` loop of
`initialize_camera` (camera_manager.py lines 27-52). Each iteration first
closes any prior handle (with a cooldown), then tries to create,
configure and start the device; `oracle attempt` tells whether that whole
attempt succeeds. On failure the loop sleeps and retries while
`attempt < max_retries - 1` (i.e. while iterations remain), and raises
`RuntimeError` on the last attempt. -/
def initLoop (oracle : Nat → Bool) : Nat → Nat → InitResult
  | attempt, 0 => .fellThrough attempt
  | attempt, Nat.succ rest =>
    if oracle attempt then .success (attempt + 1)
    else if rest = 0 then .failure (attempt + 1)
    else initLoop oracle (attempt + 1) rest

/-- `CameraManager.initialize_camera` with the constructor-fixed
`_max_retries = 3` (camera_manager.py line 13). -/
def initialize_camera (oracle : Nat → Bool) : InitResult :=
  initLoop oracle 0 3

/-- `CameraManager.cleanup` (camera_manager.py lines 54-63): if a handle is
held, `stop()` and `close()` are attempted (`teardownFails` tells whether
they raise; any error is printed and swallowed) and the `finally` sets
`picam2 = None`; with no handle nothing happens. The returned `Bool`
records whether any teardown work was performed. The function is total:
no teardown error propagates. -/
def cleanup (teardownFails : Bool) (st : CamState) : CamState × Bool :=
  match st.picam2 with
  | none => (st, false)
  | some _ => (⟨none⟩, true)

/-- Errors a capture operation can raise. -/
inductive CamErr
  | initError
  | recordError
  | stopError
  | captureError
  | attrError
deriving DecidableEq, Repr

/-- `CameraManager.capture_h264_video` (camera_manager.py lines 65-93):
initialize in video mode, record, stop, return the path; any exception is
re-raised, and the `finally` block runs `cleanup` on every exit path.
`failPicam` is the (arbitrary) handle field left behind when
initialization fails mid-attempt; `recordOk`/`stopOk` tell whether the
recording calls succeed. Returns the Python result (path or raised error)
together with the `CameraManager` state after the call. -/
def capture_h264_video (initOracle : Nat → Bool) (failPicam : Option Nat)
    (recordOk stopOk teardownFails : Bool) (timestamp : String) :
    Except CamErr String × CamState :=
  let h264_path := "videos/video_" ++ timestamp ++ ".h264"
  match initialize_camera initOracle with
  | .failure _ => (.error .initError, (cleanup teardownFails ⟨failPicam⟩).1)
  | .fellThrough _ => (.error .attrError, (cleanup teardownFails ⟨none⟩).1)
  | .success k =>
    let st : CamState := ⟨some k⟩
    if recordOk then
      if stopOk then (.ok h264_path, (cleanup teardownFails st).1)
      else (.error .stopError, (cleanup teardownFails st).1)
    else (.error .recordError, (cleanup teardownFails st).1)

/-- `CameraManager.capture_image` (camera_manager.py lines 136-158):
initialize in preview mode, capture/resize/flip/write one frame
(`captureOk` covers those calls), return the image path; the `finally`
block runs `cleanup` on every exit path. -/
def capture_image (initOracle : Nat → Bool) (failPicam : Option Nat)
    (captureOk teardownFails : Bool) (timestamp : String) :
    Except CamErr String × CamState :=
  let image_path := "images/captured_" ++ timestamp ++ ".jpg"
  match initialize_camera initOracle with
  | .failure _ => (.error .initError, (cleanup teardownFails ⟨failPicam⟩).1)
  | .fellThrough _ => (.error .attrError, (cleanup teardownFails ⟨none⟩).1)
  | .success k =>
    let st : CamState := ⟨some k⟩
    if captureOk then (.ok image_path, (cleanup teardownFails st).1)
    else (.error .captureError, (cleanup teardownFails st).1)

end CameraManager

/-! ## Artifact file cleanup (camera_manager.cleanup_files, detector.remove_annotated_image, main.run finally) -/

/-- The filesystem, as the list of currently existing paths. -/
abbrev FileSys := List String

/-- Python truthiness of an optional string (`None` and `""` are falsy). -/
def truthyStr : Option String → Bool
  | none => false
  | some s => !(s == "")

/-- `if os.path.exists(path): os.remove(path)` — remove the path when it
exists, do nothing otherwise (a missing file is not an error). -/
def removeIfExists (fs : FileSys) (p : String) : FileSys :=
  if p ∈ fs then fs.erase p else fs

namespace CameraManager

/-- `CameraManager.cleanup_files` (camera_manager.py lines 160-182):
removes each given video path and the image path when present on disk.
Each removal is wrapped in try/except, so a `None` entry in the list (the
`TypeError` from `os.path.exists(None)`) and any removal error are logged
and swallowed; an empty or `None` video list and a falsy image path are
skipped. Total by construction: no error propagates. -/
def cleanup_files (video_paths : Option (List (Option String)))
    (image_path : Option String) (fs : FileSys) : FileSys :=
  let fs1 :=
    match video_paths with
    | none => fs
    | some ps =>
      if ps.isEmpty then fs
      else
        ps.foldl (fun acc p =>
          match p with
          | none => acc
          | some q => removeIfExists acc q) fs
  match image_path with
  | none => fs1
  | some q => if q = "" then fs1 else removeIfExists fs1 q

end CameraManager

namespace ObjectDetector

/-- `ObjectDetector.remove_annotated_image` (detector.py lines 106-117):
remove the annotated image when the path is truthy and the file exists;
errors are logged and swallowed. -/
def remove_annotated_image (p : String) (fs : FileSys) : FileSys :=
  if p = "" then fs else removeIfExists fs p

end ObjectDetector

/-- The `finally` block of one detection cycle (main.py lines 124-139):
`cleanup_files(video_paths=[h264_path, mp4_path] if h264_path or mp4_path
else None, image_path=image_path)` followed by
`remove_annotated_image(annotated_image_path)` when that path is truthy
(the camera `cleanup()` call is modelled separately). -/
def cycleCleanup (h264 mp4 image annotated : Option String) (fs : FileSys) :
    FileSys :=
  let fs1 := CameraManager.cleanup_files
    (if truthyStr h264 || truthyStr mp4 then some [h264, mp4] else none)
    image fs
  match annotated with
  | none => fs1
  | some a => if a = "" then fs1 else ObjectDetector.remove_annotated_image a fs1

/-- Removal of an optional path (no-op on `none`). -/
def eraseO (fs : FileSys) : Option String → FileSys
  | none => fs
  | some q => fs.erase q

/-! ## detect_objects / draw_detections (detector.py) -/

/-- Rounding of the Python call `round(x, 2)` (exact at two-decimal scores;
half-to-even differences at exact half-cent values do not arise for the
claims checked here). -/
def round2 (q : ℚ) : ℚ := (round (q * 100) : ℤ) / 100

/-- A drawing primitive applied to an image: the `cv2.rectangle` box or the
`cv2.putText` label text `f"{category_name} ({probability})"` with its
rounded probability, at its anchor point. -/
inductive DrawOp
  | rect (startX startY endX endY : Int)
  | label (category_name : String) (probability : ℚ) (x y : Int)
deriving DecidableEq, Repr

/-- An image: an opaque pixel payload plus the primitives drawn onto it. -/
structure Image where
  pixels : Nat
  shapes : List DrawOp
deriving DecidableEq, Repr

namespace ObjectDetector

/-- The two primitives `draw_detections` draws for one detection with first
category `c` (detector.py lines 56-69): the bounding-box rectangle from
origin to origin+size, then the label text at `(origin_x, origin_y - 10)`. -/
def drawOpsFor (d : Detection) (c : Category) : List DrawOp :=
  [DrawOp.rect d.bounding_box.origin_x d.bounding_box.origin_y
      (d.bounding_box.origin_x + d.bounding_box.width)
      (d.bounding_box.origin_y + d.bounding_box.height),
   DrawOp.label c.category_name (round2 c.score) d.bounding_box.origin_x
      (d.bounding_box.origin_y - 10)]

/-- The `for detection in detection_result.detections` loop of
`draw_detections`; `none` models the `IndexError` from
`detection.categories[0]` on an empty category list. -/
def drawLoop : Image → List Detection → Option Image
  | img, [] => some img
  | img, d :: rest =>
    match d.categories.head? with
    | none => none
    | some c => drawLoop { img with shapes := img.shapes ++ drawOpsFor d c } rest

/-- `ObjectDetector.draw_detections` (detector.py lines 54-70). -/
def draw_detections (image : Image) (r : DetectionResult) : Option Image :=
  drawLoop image r.detections

/-- `ObjectDetector.detect_objects` (detector.py lines 24-52) from the point
the inference library has produced `detection_result`: draw every returned
detection onto a copy of the captured image, write the annotated copy to
`images/detected_<ts>_<n>objects.jpg` only when at least one detection was
returned, and return the detection result together with the annotated path
(`none` when there were zero detections). The second component lists the
files written with their contents. -/
def detect_objects (det : ObjectDetector) (image : Image) (timestamp : String)
    (detection_result : DetectionResult) :
    Option ((DetectionResult × Option String) × List (String × Image)) :=
  match draw_detections image detection_result with
  | none => none
  | some annotated =>
    if 0 < detection_result.detections.length then
      let annotated_path := "images/detected_" ++ timestamp ++ "_" ++
        toString detection_result.detections.length ++ "objects.jpg"
      some ((detection_result, some annotated_path),
        [(annotated_path, annotated)])
    else some ((detection_result, none), [])

end ObjectDetector

/-! ## One detection cycle of SecuritySystem.run (main.py lines 73-142) -/

/-- A Python exception class raised during a cycle. -/
inductive PyExc
  | cameraError
  | detectionError
  | indexError
  | transcodeError
  | notifyError
deriving DecidableEq, Repr

/-- The environment of one cycle: whether each external call succeeds, the
detection result the inference library returns, the configured threshold,
and the captured frame/timestamp. -/
structure CycleEnv where
  videoOk : Bool
  imageOk : Bool
  detectOk : Bool
  detections : List Detection
  transcodeOk : Bool
  sendTextOk : Bool
  sendVideoOk : Bool
  sendPhotoOk : Bool
  errNotifyOk : Bool
  thr : ℚ
  image : Image
  timestamp : String
deriving Repr

/-- What the inner `try` block of the cycle (main.py lines 84-117) did
before returning or raising: the first raised exception if any, the buzzer
activation, the successfully delivered notifications, and whether an
annotated image was persisted. -/
structure BodyOut where
  err : Option PyExc := none
  buzzDuration : Option Nat := none
  sentMessage : Option String := none
  sentVideo : Bool := false
  sentPhoto : Bool := false
  annotatedProduced : Bool := false
deriving DecidableEq, Repr

/-- The inner `try` block of one cycle, step by step: capture H.264 video,
capture an image, run detection, grant access or buzz (`buzz_buzzer()`
with its default duration of 1 second, main.py line 53), transcode, then
send the summary text, the video, and — only when an annotated path
exists — the photo. The first failing step raises and skips the rest. -/
def cycleBody (env : CycleEnv) : BodyOut :=
  if !env.videoOk then { err := some .cameraError }
  else if !env.imageOk then { err := some .cameraError }
  else if !env.detectOk then { err := some .detectionError }
  else
    let det : ObjectDetector := ⟨env.thr⟩
    let r : DetectionResult := ⟨env.detections⟩
    match det.detect_objects env.image env.timestamp r with
    | none => { err := some .indexError }
    | some ((_, annPath), _) =>
      match det.check_access r with
      | none => { err := some .indexError,
                  annotatedProduced := annPath.isSome }
      | some granted =>
        let buzz : Option Nat := if granted then none else some 1
        if !env.transcodeOk then
          { err := some .transcodeError, buzzDuration := buzz,
            annotatedProduced := annPath.isSome }
        else
          match det.format_detection_message r with
          | none => { err := some .indexError, buzzDuration := buzz,
                      annotatedProduced := annPath.isSome }
          | some msg =>
            if !env.sendTextOk then
              { err := some .notifyError, buzzDuration := buzz,
                annotatedProduced := annPath.isSome }
            else if !env.sendVideoOk then
              { err := some .notifyError, buzzDuration := buzz,
                sentMessage := some msg,
                annotatedProduced := annPath.isSome }
            else
              match annPath with
              | none =>
                { buzzDuration := buzz, sentMessage := some msg,
                  sentVideo := true }
              | some _ =>
                if !env.sendPhotoOk then
                  { err := some .notifyError, buzzDuration := buzz,
                    sentMessage := some msg, sentVideo := true,
                    annotatedProduced := true }
                else
                  { buzzDuration := buzz, sentMessage := some msg,
                    sentVideo := true, sentPhoto := true,
                    annotatedProduced := true }

/-- The observable outcome of one full cycle. `escaped` is the exception
that left the cycle's `except`/`finally` blocks (it then passes `run`'s
`except KeyboardInterrupt`, reaches the catch-all in `main()`, and the
process exits with code 1); `cleanupRan` records that the `finally` block
executed. -/
structure CycleTrace where
  buzzDuration : Option Nat
  sentMessage : Option String
  sentVideo : Bool
  sentPhoto : Bool
  errNotified : Bool
  escaped : Option PyExc
  cleanupRan : Bool
deriving DecidableEq, Repr

/-- One full cycle (main.py lines 84-139): run the body; on an exception,
the `except` block sends one error notification via `send_message` — that
call is not itself guarded, so its own failure raises out of the `except`
block — and the `finally` cleanup runs in every case. -/
def runFullCycle (env : CycleEnv) : CycleTrace :=
  let b := cycleBody env
  match b.err with
  | none =>
    { buzzDuration := b.buzzDuration, sentMessage := b.sentMessage,
      sentVideo := b.sentVideo, sentPhoto := b.sentPhoto,
      errNotified := false, escaped := none, cleanupRan := true }
  | some _ =>
    if env.errNotifyOk then
      { buzzDuration := b.buzzDuration, sentMessage := b.sentMessage,
        sentVideo := b.sentVideo, sentPhoto := b.sentPhoto,
        errNotified := true, escaped := none, cleanupRan := true }
    else
      { buzzDuration := b.buzzDuration, sentMessage := b.sentMessage,
        sentVideo := b.sentVideo, sentPhoto := b.sentPhoto,
        errNotified := true, escaped := some .notifyError,
        cleanupRan := true }

/-- Whether the process terminates because of this cycle: an exception that
escapes the cycle is not caught in `run` (whose only handler is
`KeyboardInterrupt`) and reaches the catch-all in `main()`, which calls
`sys.exit(1)`. -/
def processTerminates (env : CycleEnv) : Bool :=
  (runFullCycle env).escaped.isSome

/-! ## load_config (config_loader.py) -/

/-- The exception classes relevant to configuration loading. -/
inductive IOExc
  | fileNotFoundError
  | jsonDecodeError
  | permissionError
  | osError (code : Nat)
deriving DecidableEq, Repr

/-- A decoded configuration dictionary (a JSON object, shallowly). -/
abbrev Config := List (String × String)

/-- `load_config` (config_loader.py lines 13-21), parameterized over the
effects of `open(...).read()` and `json.load`: run the body, return the
decoded value on success, return `None` when a `FileNotFoundError` or a
`json.JSONDecodeError` is raised, and let every other exception
propagate. -/
def load_config (readFile : String → Except IOExc String)
    (parseJson : String → Except IOExc Config) (config_path : String) :
    Except IOExc (Option Config) :=
  match (do
    let s ← readFile config_path
    parseJson s : Except IOExc Config) with
  | .ok c => .ok (some c)
  | .error .fileNotFoundError => .ok none
  | .error .jsonDecodeError => .ok none
  | .error e => .error e

/-! # Theorems -/

namespace ObjectDetector

theorem checkLoop_eq_any (thr : ℚ) (l : List Detection)
    (h : ∀ d ∈ l, d.categories ≠ []) :
    checkLoop thr l = some (l.any (meets thr)) := by
  induction l with
  | nil => rfl
  | cons d rest ih =>
    have hd : d.categories ≠ [] := h d (List.mem_cons_self d rest)
    obtain ⟨c, cs, hc⟩ : ∃ c cs, d.categories = c :: cs := by
      cases hcat : d.categories with
      | nil => exact absurd hcat hd
      | cons c cs => exact ⟨c, cs, rfl⟩
    have hrest : ∀ x ∈ rest, x.categories ≠ [] :=
      fun x hx => h x (List.mem_cons_of_mem d hx)
    by_cases hthr : thr ≤ c.score
    · simp [checkLoop, meets, hc, hthr]
    · simp [checkLoop, meets, hc, hthr, ih hrest]

theorem check_access_eq_any (det : ObjectDetector) (r : DetectionResult)
    (h : ∀ d ∈ r.detections, d.categories ≠ []) :
    det.check_access r = some (r.detections.any (meets det.confidence_threshold)) := by
  unfold check_access
  cases hdet : r.detections with
  | nil => simp
  | cons d rest =>
    rw [hdet] at h
    simp [checkLoop_eq_any det.confidence_threshold (d :: rest) h]

theorem formatLoop_eq (thr : ℚ) (l : List Detection) (i : Nat)
    (h : ∀ d ∈ l, d.categories ≠ []) :
    formatLoop thr i l =
      some (strConcat ((List.enumFrom i l).map
        fun p => detectionEntry thr p.1 p.2.categories.headI)) := by
  induction l generalizing i with
  | nil => simp [formatLoop, strConcat, List.enumFrom]
  | cons d rest ih =>
    obtain ⟨c, cs, hc⟩ : ∃ c cs, d.categories = c :: cs := by
      cases hcat : d.categories with
      | nil => exact absurd hcat (h d (List.mem_cons_self d rest))
      | cons c cs => exact ⟨c, cs, rfl⟩
    have hrest : ∀ x ∈ rest, x.categories ≠ [] :=
      fun x hx => h x (List.mem_cons_of_mem d hx)
    simp [formatLoop, hc, ih (i + 1) hrest, List.enumFrom, strConcat,
      List.headI]

end ObjectDetector

/-! ## C1: check_access decides access by first-category confidence -/

/-- C1: for every well-formed detection result (each detection carries at
least one category, the invariant of mediapipe results), `check_access`
returns `True` iff some detection's first-category score meets the
configured threshold; it returns `False` on an empty detection list, and
`False` when every detection's first-category score is strictly below the
threshold. -/
theorem C1_check_access_iff_threshold (det : ObjectDetector) (r : DetectionResult)
    (h : ∀ d ∈ r.detections, d.categories ≠ []) :
    (det.check_access r = some true ↔
      ∃ d ∈ r.detections, ∃ c ∈ d.categories.head?,
        det.confidence_threshold ≤ c.score)
    ∧ (r.detections = [] → det.check_access r = some false)
    ∧ ((∀ d ∈ r.detections, ∀ c ∈ d.categories.head?,
          c.score < det.confidence_threshold) →
        det.check_access r = some false) := by
  have hkey := ObjectDetector.check_access_eq_any det r h
  refine ⟨?_, ?_, ?_⟩
  · rw [hkey]
    constructor
    · intro htrue
      have : r.detections.any (ObjectDetector.meets det.confidence_threshold) = true := by
        simpa using htrue
      obtain ⟨d, hd, hm⟩ := List.any_eq_true.mp this
      obtain ⟨c, cs, hc⟩ : ∃ c cs, d.categories = c :: cs := by
        cases hcat : d.categories with
        | nil => exact absurd hcat (h d hd)
        | cons c cs => exact ⟨c, cs, rfl⟩
      refine ⟨d, hd, c, by simp [hc], ?_⟩
      simpa [ObjectDetector.meets, hc] using hm
    · rintro ⟨d, hd, c, hc, hthr⟩
      have hm : ObjectDetector.meets det.confidence_threshold d = true := by
        simp only [ObjectDetector.meets]
        rw [Option.mem_def.mp hc]
        simpa using hthr
      simp [List.any_eq_true]
      exact ⟨d, hd, hm⟩
  · intro hemp
    simp [ObjectDetector.check_access, hemp]
  · intro hall
    rw [hkey]
    have : r.detections.any (ObjectDetector.meets det.confidence_threshold) = false := by
      rw [List.any_eq_false]
      intro d hd
      obtain ⟨c, cs, hc⟩ : ∃ c cs, d.categories = c :: cs := by
        cases hcat : d.categories with
        | nil => exact absurd hcat (h d hd)
        | cons c cs => exact ⟨c, cs, rfl⟩
      have := hall d hd c (by simp [hc])
      simp [ObjectDetector.meets, hc, not_le.mpr this]
    rw [this]

/-! ## C4: camera initialization retries exactly up to the bound -/

/-- C4: `initialize_camera` makes at most 3 attempts; it raises the
camera-initialization error iff all 3 attempts fail, in which case exactly
3 attempts were made; and a success on any attempt (the first successful
one) returns without raising. -/
theorem C4_initialize_camera_retry_bound (oracle : Nat → Bool) :
    (CameraManager.initialize_camera oracle).attempts ≤ 3
    ∧ ((∃ k, CameraManager.initialize_camera oracle =
          CameraManager.InitResult.failure k) ↔ ∀ i < 3, oracle i = false)
    ∧ ((∀ i < 3, oracle i = false) →
        CameraManager.initialize_camera oracle =
          CameraManager.InitResult.failure 3)
    ∧ (∀ i < 3, oracle i = true → (∀ j < i, oracle j = false) →
        CameraManager.initialize_camera oracle =
          CameraManager.InitResult.success (i + 1)) := by
  have hunfold : CameraManager.initialize_camera oracle =
      if oracle 0 then .success 1
      else if oracle 1 then .success 2
      else if oracle 2 then .success 3
      else .failure 3 := by
    simp [CameraManager.initialize_camera, CameraManager.initLoop]
  have hall3 : ∀ (P : Nat → Prop), (∀ i < 3, P i) ↔ P 0 ∧ P 1 ∧ P 2 := by
    intro P
    constructor
    · intro hp
      exact ⟨hp 0 (by omega), hp 1 (by omega), hp 2 (by omega)⟩
    · rintro ⟨h0, h1, h2⟩ i hi
      interval_cases i
      · exact h0
      · exact h1
      · exact h2
  refine ⟨?_, ?_, ?_, ?_⟩
  · rw [hunfold]
    cases h0 : oracle 0 <;> cases h1 : oracle 1 <;> cases h2 : oracle 2 <;>
      simp [CameraManager.InitResult.attempts]
  · rw [hunfold, hall3]
    cases h0 : oracle 0 <;> cases h1 : oracle 1 <;> cases h2 : oracle 2 <;> simp
  · rw [hunfold, hall3]
    rintro ⟨h0, h1, h2⟩
    simp [h0, h1, h2]
  · intro i hi htrue hbefore
    rw [hunfold]
    interval_cases i
    · simp [htrue]
    · simp [hbefore 0 (by omega), htrue]
    · simp [hbefore 0 (by omega), hbefore 1 (by omega), htrue]

/-- A concrete check of C4: with every attempt failing, exactly 3 attempts
are made before the error; with the second attempt succeeding, the call
succeeds after 2 attempts. -/
theorem C4_initialize_camera_retry_bound_witness :
    CameraManager.initialize_camera (fun _ => false) =
      CameraManager.InitResult.failure 3
    ∧ CameraManager.initialize_camera (fun i => i == 1) =
      CameraManager.InitResult.success 2 :=
  ⟨(C4_initialize_camera_retry_bound (fun _ => false)).2.2.1
      (fun _ _ => rfl),
   (C4_initialize_camera_retry_bound (fun i => i == 1)).2.2.2 1 (by omega)
      (by decide) (by decide)⟩

/-! ## C3: capture operations release the camera on every exit path -/

/-- C3: both capture operations leave the camera handle released
(`picam2 = None`) on every exit path, normal return or raised error alike;
`cleanup` always releases any live handle and never propagates a teardown
error (it is total by construction); `cleanup` on an already-released
state is a no-op performing no teardown; and running `cleanup` again after
any `cleanup` performs no further work, so at most one live handle can
exist at any time. -/
theorem C3_capture_releases_camera :
    (∀ (initOracle : Nat → Bool) (failPicam : Option Nat)
        (recordOk stopOk teardownFails : Bool) (ts : String),
      (CameraManager.capture_h264_video initOracle failPicam recordOk stopOk
        teardownFails ts).2.picam2 = none)
    ∧ (∀ (initOracle : Nat → Bool) (failPicam : Option Nat)
        (captureOk teardownFails : Bool) (ts : String),
      (CameraManager.capture_image initOracle failPicam captureOk
        teardownFails ts).2.picam2 = none)
    ∧ (∀ (e : Bool) (st : CameraManager.CamState),
        (CameraManager.cleanup e st).1.picam2 = none)
    ∧ (∀ (e : Bool) (st : CameraManager.CamState), st.picam2 = none →
        CameraManager.cleanup e st = (st, false))
    ∧ (∀ (e e' : Bool) (st : CameraManager.CamState),
        CameraManager.cleanup e' (CameraManager.cleanup e st).1 =
          ((CameraManager.cleanup e st).1, false)) := by
  have hclean : ∀ (e : Bool) (st : CameraManager.CamState),
      (CameraManager.cleanup e st).1.picam2 = none := by
    intro e st
    cases hst : st.picam2 with
    | none => simp [CameraManager.cleanup, hst]
    | some h => simp [CameraManager.cleanup, hst]
  have hnoop : ∀ (e : Bool) (st : CameraManager.CamState), st.picam2 = none →
      CameraManager.cleanup e st = (st, false) := by
    intro e st hst
    simp [CameraManager.cleanup, hst]
  refine ⟨?_, ?_, hclean, hnoop, ?_⟩
  · intro initOracle failPicam recordOk stopOk teardownFails ts
    unfold CameraManager.capture_h264_video
    cases CameraManager.initialize_camera initOracle with
    | failure k => exact hclean _ _
    | fellThrough k => exact hclean _ _
    | success k =>
      cases recordOk <;> cases stopOk <;> simp <;> exact hclean _ _
  · intro initOracle failPicam captureOk teardownFails ts
    unfold CameraManager.capture_image
    cases CameraManager.initialize_camera initOracle with
    | failure k => exact hclean _ _
    | fellThrough k => exact hclean _ _
    | success k =>
      cases captureOk <;> simp <;> exact hclean _ _
  · intro e e' st
    exact hnoop e' _ (hclean e st)

/-- A concrete check of C3: a successful video capture ends with the
camera handle released, and cleanup on the released state is a no-op. -/
theorem C3_capture_releases_camera_witness :
    (CameraManager.capture_h264_video (fun _ => true) none true true false
      "t").2.picam2 = none
    ∧ CameraManager.cleanup false ⟨none⟩ = (⟨none⟩, false) :=
  ⟨C3_capture_releases_camera.1 (fun _ => true) none true true false "t",
   C3_capture_releases_camera.2.2.2.1 false ⟨none⟩ rfl⟩

theorem removeIfExists_eq_erase (fs : FileSys) (p : String) :
    removeIfExists fs p = fs.erase p := by
  unfold removeIfExists
  by_cases hp : p ∈ fs
  · rw [if_pos hp]
  · rw [if_neg hp, List.erase_of_not_mem hp]

theorem mem_removeIfExists (fs : FileSys) (p q : String) (hnd : fs.Nodup) :
    q ∈ removeIfExists fs p ↔ q ∈ fs ∧ q ≠ p := by
  rw [removeIfExists_eq_erase, hnd.mem_erase_iff]
  tauto

theorem nodup_removeIfExists (fs : FileSys) (p : String) (hnd : fs.Nodup) :
    (removeIfExists fs p).Nodup := by
  rw [removeIfExists_eq_erase]
  exact hnd.erase p

theorem removeIfExists_of_not_mem (fs : FileSys) (p : String) (hp : p ∉ fs) :
    removeIfExists fs p = fs := by
  unfold removeIfExists
  rw [if_neg hp]

theorem mem_eraseO (fs : FileSys) (o : Option String) (p : String)
    (hnd : fs.Nodup) : p ∈ eraseO fs o ↔ p ∈ fs ∧ some p ≠ o := by
  cases o with
  | none => simp [eraseO]
  | some q =>
    rw [eraseO, hnd.mem_erase_iff]
    simp
    tauto

theorem nodup_eraseO (fs : FileSys) (o : Option String) (hnd : fs.Nodup) :
    (eraseO fs o).Nodup := by
  cases o with
  | none => exact hnd
  | some q => exact hnd.erase q

theorem eraseO_of_not_mem (fs : FileSys) (o : Option String)
    (h : ∀ q, o = some q → q ∉ fs) : eraseO fs o = fs := by
  cases o with
  | none => rfl
  | some q => exact List.erase_of_not_mem (h q rfl)

/-- The cycle's file cleanup is, path-set-wise, the chained removal of the
four (optional) artifact paths, provided none of them is the empty
string. -/
theorem cycleCleanup_eq_chain (h264 mp4 image annotated : Option String)
    (fs : FileSys)
    (h1 : h264 ≠ some "") (h2 : mp4 ≠ some "") (h3 : image ≠ some "")
    (h4 : annotated ≠ some "") :
    cycleCleanup h264 mp4 image annotated fs =
      eraseO (eraseO (eraseO (eraseO fs h264) mp4) image) annotated := by
  unfold cycleCleanup CameraManager.cleanup_files
    ObjectDetector.remove_annotated_image eraseO
  rcases h264 with _ | a <;> rcases mp4 with _ | b <;>
    rcases image with _ | c <;> rcases annotated with _ | d <;>
    simp_all [truthyStr, removeIfExists_eq_erase]

/-- Membership after a cycle's file cleanup: a path survives iff it was
present and is none of the produced artifact paths (provided the artifact
paths are real, i.e. not the empty string, and the filesystem listing has
no duplicates). -/
theorem mem_cycleCleanup (h264 mp4 image annotated : Option String)
    (fs : FileSys) (hnd : fs.Nodup)
    (h1 : h264 ≠ some "") (h2 : mp4 ≠ some "") (h3 : image ≠ some "")
    (h4 : annotated ≠ some "") (p : String) :
    p ∈ cycleCleanup h264 mp4 image annotated fs ↔
      p ∈ fs ∧ some p ≠ h264 ∧ some p ≠ mp4 ∧ some p ≠ image ∧
        some p ≠ annotated := by
  have n1 := nodup_eraseO fs h264 hnd
  have n2 := nodup_eraseO _ mp4 n1
  have n3 := nodup_eraseO _ image n2
  rw [cycleCleanup_eq_chain h264 mp4 image annotated fs h1 h2 h3 h4,
    mem_eraseO _ _ _ n3, mem_eraseO _ _ _ n2, mem_eraseO _ _ _ n1,
    mem_eraseO _ _ _ hnd]
  tauto

/-- C5: cycle cleanup removes exactly the produced artifacts, idempotently

C5: for every combination of produced artifacts (each of raw video,
transcoded video, still image and annotated image present or absent), the
cleanup phase leaves exactly the non-artifact files on disk — artifacts
that were never produced or whose files are already gone cause no error
(the cleanup operations are total) — and running the same cleanup a
second time changes nothing. -/
theorem C5_cycle_cleanup_exact_and_idempotent
    (h264 mp4 image annotated : Option String) (fs : FileSys)
    (hnd : fs.Nodup)
    (h1 : h264 ≠ some "") (h2 : mp4 ≠ some "") (h3 : image ≠ some "")
    (h4 : annotated ≠ some "") :
    (∀ p, p ∈ cycleCleanup h264 mp4 image annotated fs ↔
      p ∈ fs ∧ some p ≠ h264 ∧ some p ≠ mp4 ∧ some p ≠ image ∧
        some p ≠ annotated)
    ∧ cycleCleanup h264 mp4 image annotated
        (cycleCleanup h264 mp4 image annotated fs) =
      cycleCleanup h264 mp4 image annotated fs := by
  refine ⟨mem_cycleCleanup h264 mp4 image annotated fs hnd h1 h2 h3 h4, ?_⟩
  have hgone : ∀ q : String, (h264 = some q ∨ mp4 = some q ∨ image = some q ∨
      annotated = some q) → q ∉ cycleCleanup h264 mp4 image annotated fs := by
    intro q hq hmem
    rw [mem_cycleCleanup h264 mp4 image annotated fs hnd h1 h2 h3 h4] at hmem
    rcases hmem with ⟨-, e1, e2, e3, e4⟩
    rcases hq with hq | hq | hq | hq <;> simp_all
  set fs' := cycleCleanup h264 mp4 image annotated fs with hfs'
  rw [cycleCleanup_eq_chain h264 mp4 image annotated fs' h1 h2 h3 h4,
    eraseO_of_not_mem fs' h264 (fun q hq => hgone q (Or.inl hq)),
    eraseO_of_not_mem fs' mp4 (fun q hq => hgone q (Or.inr (Or.inl hq))),
    eraseO_of_not_mem fs' image
      (fun q hq => hgone q (Or.inr (Or.inr (Or.inl hq)))),
    eraseO_of_not_mem fs' annotated
      (fun q hq => hgone q (Or.inr (Or.inr (Or.inr hq))))]

/-- A concrete check of C5 on a 3-file filesystem where the video and image
artifacts exist, the transcoded video and annotated image were never
produced, and an unrelated file survives. -/
theorem C5_cycle_cleanup_exact_and_idempotent_witness :
    (∀ p, p ∈ cycleCleanup (some "videos/v.h264") none
        (some "images/i.jpg") none ["videos/v.h264", "images/i.jpg", "keep"] ↔
      p ∈ ["videos/v.h264", "images/i.jpg", "keep"] ∧
        some p ≠ some "videos/v.h264" ∧ some p ≠ none ∧
        some p ≠ some "images/i.jpg" ∧ some p ≠ none)
    ∧ cycleCleanup (some "videos/v.h264") none (some "images/i.jpg") none
        (cycleCleanup (some "videos/v.h264") none (some "images/i.jpg") none
          ["videos/v.h264", "images/i.jpg", "keep"]) =
      cycleCleanup (some "videos/v.h264") none (some "images/i.jpg") none
        ["videos/v.h264", "images/i.jpg", "keep"] :=
  C5_cycle_cleanup_exact_and_idempotent _ _ _ _ _ (by decide) (by decide)
    (by decide) (by decide) (by decide)

namespace ObjectDetector

theorem drawLoop_eq (img : Image) (l : List Detection)
    (h : ∀ d ∈ l, d.categories ≠ []) :
    drawLoop img l =
      some { img with shapes := img.shapes ++
        (l.map fun d => drawOpsFor d d.categories.headI).flatten } := by
  induction l generalizing img with
  | nil => simp [drawLoop]
  | cons d rest ih =>
    obtain ⟨c, cs, hc⟩ : ∃ c cs, d.categories = c :: cs := by
      cases hcat : d.categories with
      | nil => exact absurd hcat (h d (List.mem_cons_self d rest))
      | cons c cs => exact ⟨c, cs, rfl⟩
    have hrest : ∀ x ∈ rest, x.categories ≠ [] :=
      fun x hx => h x (List.mem_cons_of_mem d hx)
    simp [drawLoop, hc, ih _ hrest, List.headI, List.append_assoc]

end ObjectDetector

/-! ## C6: detect_objects annotates everything, persists only when non-empty -/

/-- C6: for every well-formed detection result, `detect_objects` succeeds;
the returned annotated path is `none` exactly when zero detections were
returned; an annotated file is written exactly when the detection list is
non-empty; and every written annotated image carries, appended to the
captured image, the bounding box and label+confidence primitives for every
returned detection — the drawn primitives do not depend on the confidence
threshold. -/
theorem C6_detect_objects_annotation (det : ObjectDetector) (img : Image)
    (ts : String) (r : DetectionResult)
    (h : ∀ d ∈ r.detections, d.categories ≠ []) :
    ∃ out, det.detect_objects img ts r = some out
      ∧ (out.1.2 = none ↔ r.detections = [])
      ∧ (out.2 = [] ↔ r.detections = [])
      ∧ (∀ w ∈ out.2, w.2.shapes = img.shapes ++
          (r.detections.map fun d =>
            ObjectDetector.drawOpsFor d d.categories.headI).flatten) := by
  have hdraw := ObjectDetector.drawLoop_eq img r.detections h
  unfold ObjectDetector.detect_objects ObjectDetector.draw_detections
  rw [hdraw]
  by_cases hemp : r.detections = []
  · refine ⟨((r, none), []), ?_, by simp [hemp], by simp [hemp], ?_⟩
    · simp [hemp]
    · intro w hw
      simp at hw
  · have hpos : 0 < r.detections.length := List.length_pos.mpr hemp
    refine ⟨((r, some ("images/detected_" ++ ts ++ "_" ++
        toString r.detections.length ++ "objects.jpg")),
      [("images/detected_" ++ ts ++ "_" ++ toString r.detections.length ++
          "objects.jpg",
        { pixels := img.pixels, shapes := img.shapes ++
            (r.detections.map fun d =>
              ObjectDetector.drawOpsFor d d.categories.headI).flatten })]),
      ?_, by simp [hemp], by simp [hemp], ?_⟩
    · simp [hpos]
    · intro w hw
      simp only [List.mem_singleton] at hw
      subst hw
      rfl

/-- A concrete check of C6 with one detection. -/
theorem C6_detect_objects_annotation_witness :
    let det : ObjectDetector := ⟨9/10⟩
    let img : Image := ⟨7, []⟩
    let r : DetectionResult := ⟨[⟨⟨2, 3, 10, 20⟩, [⟨95/100, "person"⟩]⟩]⟩
    ∃ out, det.detect_objects img "20240101_000000" r = some out
      ∧ (out.1.2 = none ↔ r.detections = [])
      ∧ (out.2 = [] ↔ r.detections = [])
      ∧ (∀ w ∈ out.2, w.2.shapes = img.shapes ++
          (r.detections.map fun d =>
            ObjectDetector.drawOpsFor d d.categories.headI).flatten) :=
  C6_detect_objects_annotation _ _ _ _ (by decide)

theorem runFullCycle_sentPhoto (env : CycleEnv) :
    (runFullCycle env).sentPhoto = (cycleBody env).sentPhoto := by
  unfold runFullCycle
  cases herr : (cycleBody env).err with
  | none => simp [herr]
  | some e => by_cases hn : env.errNotifyOk <;> simp [herr, hn]

/-- Only the branch that persisted an annotated image sends the photo. -/
theorem cycleBody_photo_needs_annotated (env : CycleEnv) :
    (cycleBody env).sentPhoto = true →
      (cycleBody env).annotatedProduced = true := by
  unfold cycleBody
  repeat' split
  all_goals try simp
  all_goals
    rcases hdo : (⟨env.thr⟩ : ObjectDetector).detect_objects env.image
        env.timestamp ⟨env.detections⟩ with _ | ⟨⟨r1, annPath⟩, writes⟩ <;>
    rcases hca : (⟨env.thr⟩ : ObjectDetector).check_access
        ⟨env.detections⟩ with _ | granted <;>
    rcases hfm : (⟨env.thr⟩ : ObjectDetector).format_detection_message
        ⟨env.detections⟩ with _ | msg <;>
    try (rcases annPath with _ | ap)
  all_goals simp_all

/-- With every external call succeeding and zero detections returned, the
cycle body buzzes for 1 second, sends the sentinel text and the video, and
sends no photo. -/
theorem cycleBody_allOk_nil (env : CycleEnv)
    (h1 : env.videoOk = true) (h2 : env.imageOk = true)
    (h3 : env.detectOk = true) (h4 : env.transcodeOk = true)
    (h5 : env.sendTextOk = true) (h6 : env.sendVideoOk = true)
    (hnil : env.detections = []) :
    cycleBody env =
      { buzzDuration := some 1, sentMessage := some "🚫 No objects detected",
        sentVideo := true } := by
  simp [cycleBody, h1, h2, h3, h4, h5, h6, hnil,
    ObjectDetector.detect_objects, ObjectDetector.draw_detections,
    ObjectDetector.drawLoop, ObjectDetector.check_access,
    ObjectDetector.format_detection_message]

/-- With every external call succeeding and a non-empty well-formed
detection list, the cycle body completes all steps: it buzzes iff no
detection meets the threshold, sends the formatted summary, the video and
the photo, and persisted an annotated image. -/
theorem cycleBody_allOk_cons (env : CycleEnv)
    (h1 : env.videoOk = true) (h2 : env.imageOk = true)
    (h3 : env.detectOk = true) (h4 : env.transcodeOk = true)
    (h5 : env.sendTextOk = true) (h6 : env.sendVideoOk = true)
    (h7 : env.sendPhotoOk = true)
    (h8 : ∀ d ∈ env.detections, d.categories ≠ [])
    (hne : env.detections ≠ []) :
    cycleBody env =
      { buzzDuration :=
          if env.detections.any (ObjectDetector.meets env.thr) then none
          else some 1,
        sentMessage := some ("🔍 <b>Detection Results:</b>\n" ++
          ObjectDetector.strConcat ((List.enumFrom 1 env.detections).map
            fun p => ObjectDetector.detectionEntry env.thr p.1
              p.2.categories.headI)),
        sentVideo := true, sentPhoto := true, annotatedProduced := true } := by
  have hpos : 0 < env.detections.length := List.length_pos.mpr hne
  have hdo : (⟨env.thr⟩ : ObjectDetector).detect_objects env.image
      env.timestamp ⟨env.detections⟩ =
      some ((⟨env.detections⟩,
        some ("images/detected_" ++ env.timestamp ++ "_" ++
          toString env.detections.length ++ "objects.jpg")),
        [("images/detected_" ++ env.timestamp ++ "_" ++
            toString env.detections.length ++ "objects.jpg",
          { pixels := env.image.pixels, shapes := env.image.shapes ++
              (env.detections.map fun d =>
                ObjectDetector.drawOpsFor d d.categories.headI).flatten })]) := by
    unfold ObjectDetector.detect_objects ObjectDetector.draw_detections
    rw [ObjectDetector.drawLoop_eq _ _ h8]
    simp [hpos]
  have hca : (⟨env.thr⟩ : ObjectDetector).check_access ⟨env.detections⟩ =
      some (env.detections.any (ObjectDetector.meets env.thr)) :=
    ObjectDetector.check_access_eq_any ⟨env.thr⟩ ⟨env.detections⟩ h8
  have hfmt : (⟨env.thr⟩ : ObjectDetector).format_detection_message
      ⟨env.detections⟩ =
      some ("🔍 <b>Detection Results:</b>\n" ++
        ObjectDetector.strConcat ((List.enumFrom 1 env.detections).map
          fun p => ObjectDetector.detectionEntry env.thr p.1
            p.2.categories.headI)) := by
    unfold ObjectDetector.format_detection_message
    rw [if_neg (by simpa using hne), ObjectDetector.formatLoop_eq _ _ _ h8]
  simp [cycleBody, h1, h2, h3, h4, h5, h6, h7, hdo, hca, hfmt]

/-! ## C2: error containment at the cycle boundary (corrected) -/

/-- Counterexample to C2 as stated: in a cycle where video capture raises
and the error notification `send_message` itself fails, the notification
failure is not swallowed — the exception escapes the cycle (the
`send_message` call at main.py line 122 is not guarded) and the process
terminates via the catch-all in `main()` with exit code 1. -/
theorem C2_notify_failure_escalates_counterexample :
    let env : CycleEnv :=
      { videoOk := false, imageOk := true, detectOk := true, detections := [],
        transcodeOk := true, sendTextOk := true, sendVideoOk := true,
        sendPhotoOk := true, errNotifyOk := false, thr := 9/10,
        image := ⟨0, []⟩, timestamp := "t" }
    (runFullCycle env).errNotified = true ∧
      (runFullCycle env).escaped = some PyExc.notifyError ∧
      processTerminates env = true := by
  refine ⟨rfl, rfl, rfl⟩

/-- C2 (amended): every exception raised inside a detection cycle is caught
at the cycle boundary, exactly one error notification is attempted, and
cleanup runs in every case; when the notification succeeds the error does
not escape the cycle — but the notification call itself is not guarded, so
its failure escapes the cycle (and terminates the process), contrary to
the original claim. -/
theorem C2_cycle_error_containment (env : CycleEnv) :
    (runFullCycle env).cleanupRan = true
    ∧ ((runFullCycle env).errNotified = true ↔ (cycleBody env).err.isSome)
    ∧ ((runFullCycle env).escaped.isSome ↔
        ((cycleBody env).err.isSome ∧ env.errNotifyOk = false))
    ∧ ((cycleBody env).err.isSome → env.errNotifyOk = true →
        (runFullCycle env).escaped = none) := by
  unfold runFullCycle
  cases herr : (cycleBody env).err with
  | none => simp [herr]
  | some e => by_cases hn : env.errNotifyOk <;> simp [herr, hn]

/-- A concrete check of C2 (amended): detection raises, the error
notification succeeds, and the cycle ends cleanly with one notification
attempt. -/
theorem C2_cycle_error_containment_witness :
    let env : CycleEnv :=
      { videoOk := true, imageOk := true, detectOk := false, detections := [],
        transcodeOk := true, sendTextOk := true, sendVideoOk := true,
        sendPhotoOk := true, errNotifyOk := true, thr := 9/10,
        image := ⟨0, []⟩, timestamp := "t" }
    (runFullCycle env).cleanupRan = true
    ∧ ((runFullCycle env).errNotified = true ↔ (cycleBody env).err.isSome)
    ∧ ((runFullCycle env).escaped.isSome ↔
        ((cycleBody env).err.isSome ∧ env.errNotifyOk = false))
    ∧ ((cycleBody env).err.isSome → env.errNotifyOk = true →
        (runFullCycle env).escaped = none) :=
  C2_cycle_error_containment _

/-! ## C8: the zero-detection cycle -/

/-- C8: in a cycle where every external call succeeds and detection returns
zero detections, the summary sent is the no-detection sentinel, the buzzer
activates for the default 1-second duration, the video notification is
sent and no photo notification is (exactly two notifications); and in
general a photo notification is issued only when an annotated image was
persisted — under these hypotheses, exactly when the detection list is
non-empty. -/
theorem C8_zero_detection_cycle (env : CycleEnv)
    (h1 : env.videoOk = true) (h2 : env.imageOk = true)
    (h3 : env.detectOk = true) (h4 : env.transcodeOk = true)
    (h5 : env.sendTextOk = true) (h6 : env.sendVideoOk = true)
    (h7 : env.sendPhotoOk = true)
    (h8 : ∀ d ∈ env.detections, d.categories ≠ []) :
    (env.detections = [] →
      runFullCycle env =
        { buzzDuration := some 1,
          sentMessage := some "🚫 No objects detected", sentVideo := true,
          sentPhoto := false, errNotified := false, escaped := none,
          cleanupRan := true })
    ∧ ((runFullCycle env).sentPhoto = true ↔ env.detections ≠ [])
    ∧ (∀ env' : CycleEnv, (runFullCycle env').sentPhoto = true →
        (cycleBody env').annotatedProduced = true) := by
  refine ⟨?_, ?_, ?_⟩
  · intro hnil
    have hbody := cycleBody_allOk_nil env h1 h2 h3 h4 h5 h6 hnil
    unfold runFullCycle
    rw [hbody]
  · rw [runFullCycle_sentPhoto]
    by_cases hnil : env.detections = []
    · rw [cycleBody_allOk_nil env h1 h2 h3 h4 h5 h6 hnil]
      simp [hnil]
    · rw [cycleBody_allOk_cons env h1 h2 h3 h4 h5 h6 h7 h8 hnil]
      simp [hnil]
  · intro env' hphoto
    exact cycleBody_photo_needs_annotated env'
      (by rw [runFullCycle_sentPhoto] at hphoto; exact hphoto)

/-- A concrete check of C8 on an all-success zero-detection cycle. -/
theorem C8_zero_detection_cycle_witness :
    let env : CycleEnv :=
      { videoOk := true, imageOk := true, detectOk := true, detections := [],
        transcodeOk := true, sendTextOk := true, sendVideoOk := true,
        sendPhotoOk := true, errNotifyOk := true, thr := 9/10,
        image := ⟨0, []⟩, timestamp := "t" }
    (env.detections = [] →
      runFullCycle env =
        { buzzDuration := some 1,
          sentMessage := some "🚫 No objects detected", sentVideo := true,
          sentPhoto := false, errNotified := false, escaped := none,
          cleanupRan := true })
    ∧ ((runFullCycle env).sentPhoto = true ↔ env.detections ≠ [])
    ∧ (∀ env' : CycleEnv, (runFullCycle env').sentPhoto = true →
        (cycleBody env').annotatedProduced = true) :=
  C8_zero_detection_cycle _ rfl rfl rfl rfl rfl rfl rfl
    (by intro d hd; simp at hd)

/-! ## C7: format_detection_message structure -/

theorem header_append_ne_sentinel (s : String) :
    "🔍 <b>Detection Results:</b>\n" ++ s ≠ "🚫 No objects detected" := by
  intro hEq
  have hlen := congrArg String.length hEq
  rw [String.length_append] at hlen
  have h1 : ("🔍 <b>Detection Results:</b>\n" : String).length = 28 := by decide
  have h2 : ("🚫 No objects detected" : String).length = 21 := by decide
  omega

/-- C7: for every well-formed detection result, `format_detection_message`
returns the "no objects detected" sentinel exactly when the detection list
is empty, and otherwise the header followed by one entry per detection;
each entry (`ObjectDetector.detectionEntry`) carries the detection's label,
its confidence rendered as a percentage, and a granted/denied annotation
decided by that detection's own first-category confidence against the
threshold. -/
theorem C7_format_message_structure (det : ObjectDetector) (r : DetectionResult)
    (h : ∀ d ∈ r.detections, d.categories ≠ []) :
    (det.format_detection_message r = some "🚫 No objects detected" ↔
      r.detections = [])
    ∧ (r.detections ≠ [] →
        det.format_detection_message r =
          some ("🔍 <b>Detection Results:</b>\n" ++
            ObjectDetector.strConcat ((List.enumFrom 1 r.detections).map
              fun p =>
                ObjectDetector.detectionEntry det.confidence_threshold p.1
                  p.2.categories.headI))) := by
  have hfmt : r.detections ≠ [] →
      det.format_detection_message r =
        some ("🔍 <b>Detection Results:</b>\n" ++
          ObjectDetector.strConcat ((List.enumFrom 1 r.detections).map
            fun p =>
              ObjectDetector.detectionEntry det.confidence_threshold p.1
                p.2.categories.headI)) := by
    intro hne
    unfold ObjectDetector.format_detection_message
    rw [if_neg (by simpa using hne),
      ObjectDetector.formatLoop_eq det.confidence_threshold r.detections 1 h]
  refine ⟨⟨?_, ?_⟩, hfmt⟩
  · intro hsent
    by_contra hne
    rw [hfmt hne] at hsent
    exact header_append_ne_sentinel _ (by injection hsent)
  · intro hemp
    simp [ObjectDetector.format_detection_message, hemp]

/-- A concrete check of C7: threshold 9/10, detections at 95/100 ("person",
granted) and 1/2 ("cat", denied). -/
theorem C7_format_message_structure_witness :
    let det : ObjectDetector := ⟨9/10⟩
    let r : DetectionResult :=
      ⟨[⟨⟨0, 0, 10, 10⟩, [⟨95/100, "person"⟩]⟩,
        ⟨⟨1, 1, 5, 5⟩, [⟨1/2, "cat"⟩]⟩]⟩
    (det.format_detection_message r = some "🚫 No objects detected" ↔
      r.detections = [])
    ∧ (r.detections ≠ [] →
        det.format_detection_message r =
          some ("🔍 <b>Detection Results:</b>\n" ++
            ObjectDetector.strConcat ((List.enumFrom 1 r.detections).map
              fun p =>
                ObjectDetector.detectionEntry det.confidence_threshold p.1
                  p.2.categories.headI))) :=
  C7_format_message_structure _ _ (by decide)

/-! ## C9: only the first category of each detection is consulted -/

theorem checkLoop_congr (thr : ℚ) (l l' : List Detection)
    (h : l.map (fun d => d.categories.head?) =
      l'.map (fun d => d.categories.head?)) :
    ObjectDetector.checkLoop thr l = ObjectDetector.checkLoop thr l' := by
  induction l generalizing l' with
  | nil =>
    have : l' = [] := by
      cases l' with
      | nil => rfl
      | cons x xs => simp at h
    rw [this]
  | cons d rest ih =>
    cases l' with
    | nil => simp at h
    | cons d' rest' =>
      simp only [List.map_cons, List.cons.injEq] at h
      obtain ⟨hhead, htail⟩ := h
      simp only [ObjectDetector.checkLoop, hhead, ih rest' htail]

theorem formatLoop_congr (thr : ℚ) (l l' : List Detection) (i : Nat)
    (h : l.map (fun d => d.categories.head?) =
      l'.map (fun d => d.categories.head?)) :
    ObjectDetector.formatLoop thr i l = ObjectDetector.formatLoop thr i l' := by
  induction l generalizing l' i with
  | nil =>
    have : l' = [] := by
      cases l' with
      | nil => rfl
      | cons x xs => simp at h
    rw [this]
  | cons d rest ih =>
    cases l' with
    | nil => simp at h
    | cons d' rest' =>
      simp only [List.map_cons, List.cons.injEq] at h
      obtain ⟨hhead, htail⟩ := h
      simp only [ObjectDetector.formatLoop, hhead, ih rest' (i + 1) htail]

/-- C9: under the well-formedness invariant (every detection has at least
one category) neither `check_access` nor `format_detection_message` fails,
and both operations depend only on the first category of each detection:
any result whose detections agree on `categories.head?` yields the same
access decision and the same message, so no detection can be authorized or
annotated through a non-first category. -/
theorem C9_first_category_only (det : ObjectDetector) (r : DetectionResult)
    (h : ∀ d ∈ r.detections, d.categories ≠ []) :
    ((det.check_access r).isSome ∧ (det.format_detection_message r).isSome)
    ∧ (∀ r' : DetectionResult,
        r.detections.map (fun d => d.categories.head?) =
          r'.detections.map (fun d => d.categories.head?) →
        det.check_access r = det.check_access r' ∧
        det.format_detection_message r = det.format_detection_message r') := by
  refine ⟨⟨?_, ?_⟩, ?_⟩
  · rw [ObjectDetector.check_access_eq_any det r h]; rfl
  · by_cases hemp : r.detections = []
    · simp [ObjectDetector.format_detection_message, hemp]
    · rw [(C7_format_message_structure det r h).2 hemp]; rfl
  · intro r' hmap
    have hlen : r.detections.length = r'.detections.length := by
      have := congrArg List.length hmap
      simpa using this
    constructor
    · unfold ObjectDetector.check_access
      rw [checkLoop_congr det.confidence_threshold r.detections r'.detections hmap]
      cases hr : r.detections with
      | nil =>
        have : r'.detections = [] := by
          rw [hr] at hlen
          exact List.length_eq_zero.mp hlen.symm
        simp [hr, this]
      | cons x xs =>
        cases hr' : r'.detections with
        | nil => rw [hr, hr'] at hlen; simp at hlen
        | cons y ys => simp [hr, hr'] at hmap ⊢
    · unfold ObjectDetector.format_detection_message
      rw [hlen,
        formatLoop_congr det.confidence_threshold r.detections r'.detections 1 hmap]

/-- A concrete check of C9: a two-category detection agrees with its
one-category truncation on both operations. -/
theorem C9_first_category_only_witness :
    let det : ObjectDetector := ⟨9/10⟩
    let r : DetectionResult := ⟨[⟨⟨0, 0, 10, 10⟩, [⟨95/100, "person"⟩, ⟨1/2, "cat"⟩]⟩]⟩
    ((det.check_access r).isSome ∧ (det.format_detection_message r).isSome)
    ∧ (∀ r' : DetectionResult,
        r.detections.map (fun d => d.categories.head?) =
          r'.detections.map (fun d => d.categories.head?) →
        det.check_access r = det.check_access r' ∧
        det.format_detection_message r = det.format_detection_message r') :=
  C9_first_category_only _ _ (by decide)

/-- A concrete check of C1: threshold 9/10, two detections with first-category
scores 95/100 and 1/2. -/
theorem C1_check_access_iff_threshold_witness :
    let det : ObjectDetector := ⟨9/10⟩
    let r : DetectionResult :=
      ⟨[⟨⟨0, 0, 10, 10⟩, [⟨95/100, "person"⟩]⟩,
        ⟨⟨1, 1, 5, 5⟩, [⟨1/2, "cat"⟩, ⟨99/100, "dog"⟩]⟩]⟩
    (det.check_access r = some true ↔
      ∃ d ∈ r.detections, ∃ c ∈ d.categories.head?,
        det.confidence_threshold ≤ c.score)
    ∧ (r.detections = [] → det.check_access r = some false)
    ∧ ((∀ d ∈ r.detections, ∀ c ∈ d.categories.head?,
          c.score < det.confidence_threshold) →
        det.check_access r = some false) :=
  C1_check_access_iff_threshold _ _ (by decide)

/-! ## C10: load_config returns None exactly on missing file / invalid JSON -/

/-- C10: provided file reading never raises a JSON-decoding error and
`json.load` fails only with `JSONDecodeError` (the behaviour of the Python
standard library), `load_config` returns `None` exactly when the file is
absent or its contents fail to decode, returns the decoded dictionary when
both steps succeed, and lets every other exception — a permission error,
any OS error — propagate to the caller. -/
theorem C10_load_config_none_iff (readFile : String → Except IOExc String)
    (parseJson : String → Except IOExc Config) (path : String)
    (hread : readFile path ≠ .error .jsonDecodeError)
    (hparse : ∀ s e, parseJson s = .error e → e = .jsonDecodeError) :
    (load_config readFile parseJson path = .ok none ↔
      (readFile path = .error .fileNotFoundError ∨
        ∃ s, readFile path = .ok s ∧ parseJson s = .error .jsonDecodeError))
    ∧ (∀ c, load_config readFile parseJson path = .ok (some c) ↔
        ∃ s, readFile path = .ok s ∧ parseJson s = .ok c)
    ∧ (∀ e, e ≠ IOExc.fileNotFoundError → e ≠ IOExc.jsonDecodeError →
        readFile path = .error e →
        load_config readFile parseJson path = .error e) := by
  unfold load_config
  cases hr : readFile path with
  | error e =>
    refine ⟨?_, ?_, ?_⟩
    · cases e <;> simp_all [Bind.bind, Except.bind]
    · intro c
      cases e <;> simp [Bind.bind, Except.bind]
    · intro e' he1 he2 hre
      injection hre with hee
      subst hee
      cases e <;> simp_all [Bind.bind, Except.bind]
  | ok s =>
    refine ⟨?_, ?_, ?_⟩
    · cases hp : parseJson s with
      | error e =>
        have := hparse s e hp
        subst this
        simp_all [Bind.bind, Except.bind]
      | ok c => simp_all [Bind.bind, Except.bind]
    · intro c
      cases hp : parseJson s with
      | error e =>
        have := hparse s e hp
        subst this
        simp_all [Bind.bind, Except.bind]
      | ok c' => simp_all [Bind.bind, Except.bind]
    · intro e' he1 he2 hre
      exact absurd hre (by simp)

/-- A concrete check of C10: a one-file filesystem where the configuration
file decodes, a missing path yields `None`, and a permission-denied path
propagates. -/
theorem C10_load_config_none_iff_witness :
    let readFile : String → Except IOExc String := fun p =>
      if p = "config.json" then .ok "body"
      else if p = "secret.json" then .error .permissionError
      else .error .fileNotFoundError
    let parseJson : String → Except IOExc Config := fun s =>
      if s = "body" then .ok [("telegram", "t")] else .error .jsonDecodeError
    (load_config readFile parseJson "config.json" = .ok none ↔
      (readFile "config.json" = .error .fileNotFoundError ∨
        ∃ s, readFile "config.json" = .ok s ∧
          parseJson s = .error .jsonDecodeError))
    ∧ (∀ c, load_config readFile parseJson "config.json" = .ok (some c) ↔
        ∃ s, readFile "config.json" = .ok s ∧ parseJson s = .ok c)
    ∧ (∀ e, e ≠ IOExc.fileNotFoundError → e ≠ IOExc.jsonDecodeError →
        readFile "config.json" = .error e →
        load_config readFile parseJson "config.json" = .error e) :=
  C10_load_config_none_iff _ _ _ (by simp)
    (fun s e h => by
      by_cases hs : s = "body"
      · simp [hs] at h
      · simp [hs] at h
        exact h.symm)
